import Mathlib

/-!
Verification of the worker-construction pipeline in
`src/packages/apalis-core/src/builder.rs` (the `WorkerBuilder` type-state
builder, its transformations `stream`, `with_stream`, `middleware`, `layer`,
and the factory entry points `build` and `build_fn`).

The embedding is shallow: Rust values become Lean values, generic type
parameters become Lean type parameters, and the tower middleware stack is
represented semantically by its action on an inner service (the `Layer::layer`
method of the accumulated stack).  Types that the builder depends on but whose
definitions are outside the provided sources (`JobRequest`, `WorkerRef`,
`ReadyWorker`, `JobFn`/`job_fn`) are modelled from the spec, each marked so in
its doc comment.
-/

namespace Apalis

/-- Embeds Rust's zero-sized `PhantomData<J>` marker: a compile-time-only tag
carrying the job-item type, with no runtime content. -/
inductive PhantomData (J : Type) : Type
  | mk : PhantomData J
deriving DecidableEq, Repr

/-- Modelled from the spec: `JobRequest<J>` is an opaque envelope carrying one
payload of job-item type `J` plus processing metadata; its internal structure
is outside this core's concern, so only the payload is modelled. -/
structure JobRequest (J : Type) : Type where
  job : J
deriving DecidableEq, Repr

/-- A source as the builder's `stream` bound requires it: a pull-based
producer of `Result<Option<JobRequest<J>>, E>` outcomes (request available /
nothing available right now / error), modelled by the sequence of outcomes it
yields. -/
def JobStream (J E : Type) : Type :=
  List (Except E (Option (JobRequest J)))

/-- Embeds tower's `ServiceBuilder<L>`: the accumulated middleware stack,
represented semantically by the function its `Layer::layer` implementation
denotes — it turns an inner service of type `Inner` into the decorated
service of type `Outer`. -/
structure ServiceBuilder (Inner Outer : Type) : Type where
  stack : Inner → Outer

/-- Embeds `ServiceBuilder::new()`: the `Identity` stack, which leaves any
service unchanged. -/
def ServiceBuilder.new {S : Type} : ServiceBuilder S S :=
  ⟨fun s => s⟩

/-- Embeds `ServiceBuilder::layer` (tower's `Stack::new(layer, self.layer)`):
the newly pushed layer is applied to the inner service first, and everything
accumulated so far wraps the result — so earlier layers stay outermost. -/
def ServiceBuilder.layer {T O NI : Type} (b : ServiceBuilder T O) (l : NI → T) :
    ServiceBuilder NI O :=
  ⟨fun s => b.stack (l s)⟩

/-- Embeds `ServiceBuilder::service`: apply the accumulated stack once to the
terminal service. -/
def ServiceBuilder.service {I O : Type} (b : ServiceBuilder I O) (s : I) : O :=
  b.stack s

/-- Modelled from the spec: `WorkerRef` is a reference to the identity (name)
of the worker being built, handed to source constructors. -/
structure WorkerRef : Type where
  name : String
deriving DecidableEq, Repr

/-- Modelled from the spec: `WorkerRef::new` wraps a worker name. -/
def WorkerRef.new (name : String) : WorkerRef :=
  ⟨name⟩

/-- Embeds `WorkerBuilder<Job, Source, Middleware>`: identity name, phantom
job-item marker, accumulated middleware, and the stored source.  The single
Rust `Middleware` parameter is represented by the two service types its stack
connects (`Inner` accepted innermost, `Outer` produced outermost). -/
structure WorkerBuilder (Job Source : Type) (Inner Outer : Type) : Type where
  name : String
  job : PhantomData Job
  layer : ServiceBuilder Inner Outer
  source : Source

/-- Embeds `WorkerBuilder::new(name)`: unset job-item type `()`, placeholder
source `()`, identity middleware stack. -/
def WorkerBuilder.new {S : Type} (name : String) : WorkerBuilder Unit Unit S S :=
  { name := name, job := PhantomData.mk, layer := ServiceBuilder.new, source := () }

/-- Embeds `WorkerBuilder::stream`: consume a stream directly, fixing the
job-item type `NJ` from the stream's item type and keeping name and
middleware. -/
def WorkerBuilder.stream {J S I O NJ E : Type} (self : WorkerBuilder J S I O)
    (stream : JobStream NJ E) : WorkerBuilder NJ (JobStream NJ E) I O :=
  { job := PhantomData.mk, layer := self.layer, source := stream, name := self.name }

/-- Embeds `WorkerBuilder::with_stream`: build the stream from a `WorkerRef`
holding the builder's name; otherwise as `stream`. -/
def WorkerBuilder.with_stream {J S I O NJ E : Type} (self : WorkerBuilder J S I O)
    (stream : WorkerRef → JobStream NJ E) : WorkerBuilder NJ (JobStream NJ E) I O :=
  { job := PhantomData.mk, layer := self.layer,
    source := stream (WorkerRef.new self.name), name := self.name }

/-- Embeds `WorkerBuilder::middleware`: apply an arbitrary function over the
current middleware stack, keeping job marker, name and source. -/
def WorkerBuilder.middleware {J S I O NI NO : Type} (self : WorkerBuilder J S I O)
    (f : ServiceBuilder I O → ServiceBuilder NI NO) : WorkerBuilder J S NI NO :=
  { job := self.job, layer := f self.layer, name := self.name, source := self.source }

/-- Embeds `WorkerBuilder::layer` (named `addLayer` here because the record
field `layer` already takes that name): append exactly one middleware layer
via `ServiceBuilder::layer`, keeping job marker, source and name. -/
def WorkerBuilder.addLayer {J S I O NI : Type} (self : WorkerBuilder J S I O)
    (l : NI → I) : WorkerBuilder J S NI O :=
  { job := self.job, source := self.source, layer := self.layer.layer l, name := self.name }

/-- Modelled from the spec: `ReadyWorker` is the terminal product — identity
name, finished source, fully decorated handler — exactly the three fields the
`build` implementation in `builder.rs` constructs. -/
structure ReadyWorker (Source Service : Type) : Type where
  name : String
  stream : Source
  service : Service

/-- Embeds `WorkerFactory::build` for `WorkerBuilder`: apply the accumulated
middleware stack once to the terminal service and move name, source and the
composed service into a `ReadyWorker`. -/
def WorkerBuilder.build {J S I O : Type} (self : WorkerBuilder J S I O)
    (service : I) : ReadyWorker S O :=
  { name := self.name, stream := self.source, service := self.layer.service service }

/-- Modelled from the spec: `JobFn<F>` is the minimal adapter wrapping a bare
function so that invoking the function is the entire terminal handling
operation. -/
structure JobFn (F : Type) : Type where
  f : F
deriving DecidableEq, Repr

/-- Modelled from the spec: `job_fn` wraps a bare function into the adapter. -/
def job_fn {F : Type} (f : F) : JobFn F :=
  ⟨f⟩

/-- Modelled from the spec: invoking the adapter invokes the wrapped function
on the request, as the entire terminal handling operation. -/
def JobFn.call {Req Res : Type} (j : JobFn (Req → Res)) (r : Req) : Res :=
  j.f r

/-- Embeds `WorkerFactoryFn::build_fn` for any `WorkerFactory`: wrap the bare
function with `job_fn` and delegate to `build`. -/
def WorkerBuilder.build_fn {J S O F : Type} (self : WorkerBuilder J S (JobFn F) O)
    (f : F) : ReadyWorker S O :=
  self.build (job_fn f)

/-- A chain of `add_layer` calls, first element added first: the iterated use
of `WorkerBuilder::layer` over a list of decorators of one service type. -/
def WorkerBuilder.addLayers {J S Sv O : Type} (self : WorkerBuilder J S Sv O)
    (ds : List (Sv → Sv)) : WorkerBuilder J S Sv O :=
  ds.foldl (fun b d => b.addLayer d) self

/-- Nested application of a decorator list to a terminal handler: the first
list element outermost, the handler innermost. -/
def nest {Sv : Type} (ds : List (Sv → Sv)) (H : Sv) : Sv :=
  ds.foldr (fun d r => d r) H

theorem addLayers_build_service {J S Sv O : Type} (b : WorkerBuilder J S Sv O)
    (ds : List (Sv → Sv)) (H : Sv) :
    ((b.addLayers ds).build H).service = b.layer.stack (nest ds H) := by
  induction ds generalizing b with
  | nil => rfl
  | cons d ds ih =>
      show (((b.addLayer d).addLayers ds).build H).service = _
      rw [ih]
      rfl

theorem addLayers_name {J S Sv O : Type} (b : WorkerBuilder J S Sv O)
    (ds : List (Sv → Sv)) : (b.addLayers ds).name = b.name := by
  induction ds generalizing b with
  | nil => rfl
  | cons d ds ih => exact (ih (b.addLayer d)).trans rfl

theorem nest_of_passthrough {Sv : Type} (ds : List (Sv → Sv)) (H : Sv)
    (h : ∀ d ∈ ds, d = fun sv => sv) : nest ds H = H := by
  induction ds with
  | nil => rfl
  | cons d ds ih =>
      have hd : d = fun sv => sv := h d (List.mem_cons_self d ds)
      have hds : nest ds H = H := ih fun d hm => h d (List.mem_cons_of_mem _ hm)
      show d (nest ds H) = H
      rw [hd, hds]

/-- Claim C1: for every sequence of decorators `D1..Dn` added via
`middleware`/`layer` and every terminal handler `H`, the handler of the worker
produced by `build H` is the nested composition `D1 (D2 (... (Dn H)))` — the
first decorator added is outermost, the terminal handler innermost, for any
number of chained calls; and a `middleware` call adding a single layer is the
same builder transformation as `layer`. -/
theorem first_added_decorator_is_outermost {NJ E Sv J2 S2 I2 O2 NI2 : Type}
    (n : String) (s : JobStream NJ E) (ds : List (Sv → Sv)) (H : Sv)
    (b : WorkerBuilder J2 S2 I2 O2) (d : NI2 → I2) :
    ((((WorkerBuilder.new n).stream s).addLayers ds).build H).service
        = ds.foldr (fun dec r => dec r) H
      ∧ b.middleware (fun sb => sb.layer d) = b.addLayer d := by
  constructor
  · rw [addLayers_build_service]
    rfl
  · rfl

/-- Claim C2: `build H` applies the accumulated decorator chain exactly once
to the terminal handler `H` and returns a worker whose name is the builder's
name, whose stream is exactly the builder's stored source, and whose service
is the single composed handler `layer.service H`. -/
theorem build_moves_name_source_and_composed_handler {J S I O : Type}
    (b : WorkerBuilder J S I O) (H : I) :
    (b.build H).name = b.name ∧ (b.build H).stream = b.source ∧
      (b.build H).service = b.layer.service H :=
  ⟨rfl, rfl, rfl⟩

/-- Claim C3: the convenience path `build_fn f` produces exactly the worker of
the primary path `build (job_fn f)` — the two are structurally equal, hence
behaviorally indistinguishable — and the adapter invokes `f` with the very
request it receives, yielding `f`'s result. -/
theorem build_fn_indistinguishable_from_build_job_fn {J S O Req Res : Type}
    (b : WorkerBuilder J S (JobFn (Req → Res)) O) (f : Req → Res) :
    b.build_fn f = b.build (job_fn f) ∧ ∀ r : Req, (job_fn f).call r = f r :=
  ⟨rfl, fun _ => rfl⟩

/-- Claim C4 counterexample: a builder that already holds a concrete source
(the stream `[Except.ok (some ⟨0⟩)]`, not the `()` placeholder) still exposes
`stream`; the second call is well-typed and stores the new stream, so the
source slot is not a one-time placeholder. -/
theorem stream_second_call_is_exposed :
    (((WorkerBuilder.new "w" :
            WorkerBuilder Unit Unit (Nat → Nat) (Nat → Nat)).stream
          ([Except.ok (some ⟨0⟩)] : JobStream Nat String)).stream
        ([Except.ok none] : JobStream Bool String)).source
      = ([Except.ok none] : JobStream Bool String) :=
  rfl

/-- Claim C4 amended: attaching a source via `stream` is exposed on every
builder state, whatever its current source; the call stores the given stream
as the source and leaves name and decorator chain unchanged (the slot is
rebindable, not one-time). -/
theorem stream_available_on_any_state {J S I O NJ E : Type}
    (b : WorkerBuilder J S I O) (s : JobStream NJ E) :
    (b.stream s).source = s ∧ (b.stream s).name = b.name ∧
      (b.stream s).layer = b.layer :=
  ⟨rfl, rfl, rfl⟩

/-- Claim C5: the identity name given at creation is propagated unchanged by
`stream`, `with_stream`, `middleware` and `layer` into the finished worker;
each transformation changes only its target component (attaching a source
keeps the decorator chain; decorating keeps the source); and any chain
`new n` → `stream` → layers → `build` yields a worker named exactly `n`. -/
theorem identity_name_propagated_unchanged {J S I O NJ E NI NO Sv : Type}
    (n : String) (b : WorkerBuilder J S I O) (s : JobStream NJ E)
    (f : WorkerRef → JobStream NJ E)
    (g : ServiceBuilder I O → ServiceBuilder NI NO) (l : NI → I) (H : I)
    (s2 : JobStream NJ E) (ds : List (Sv → Sv)) (H2 : Sv) :
    (b.stream s).name = b.name ∧
      (b.with_stream f).name = b.name ∧
      (b.middleware g).name = b.name ∧
      (b.addLayer l).name = b.name ∧
      (b.build H).name = b.name ∧
      (b.stream s).layer = b.layer ∧
      (b.with_stream f).layer = b.layer ∧
      (b.middleware g).source = b.source ∧
      (b.addLayer l).source = b.source ∧
      ((((WorkerBuilder.new n).stream s2).addLayers ds).build H2).name = n := by
  exact ⟨rfl, rfl, rfl, rfl, rfl, rfl, rfl, rfl, rfl,
    addLayers_name ((WorkerBuilder.new n).stream s2) ds⟩

/-- Claim C6: `with_stream f` stores as source exactly one invocation of the
factory `f` at a `WorkerRef` holding the builder's name, and
`with_stream (fun r => s)` is the same builder transformation as `stream s`. -/
theorem with_stream_invokes_factory_once_with_name {J S I O NJ E : Type}
    (b : WorkerBuilder J S I O) (s : JobStream NJ E)
    (f : WorkerRef → JobStream NJ E) :
    (b.with_stream f).source = f (WorkerRef.new b.name) ∧
      b.with_stream (fun _ => s) = b.stream s :=
  ⟨rfl, rfl⟩

/-- Claim C7: decoration neutrality — when every decorator in the chain is the
pure pass-through and the terminal handler maps `r` to `f r`, the built
worker's handler yields `f r` on input `r`, unchanged by the chain. -/
theorem decoration_neutrality {NJ E Req Res : Type} (n : String)
    (s : JobStream NJ E) (ds : List ((Req → Res) → (Req → Res)))
    (f : Req → Res) (r : Req) (hpass : ∀ d ∈ ds, d = fun sv => sv) :
    ((((WorkerBuilder.new n).stream s).addLayers ds).build f).service r = f r := by
  rw [addLayers_build_service]
  show nest ds f r = f r
  rw [nest_of_passthrough ds f hpass]

/-- Claim C7 witness: a concrete two-element pass-through chain over handler
`fun x => x + 1` yields `3 + 1` at input `3`. -/
theorem decoration_neutrality_example :
    (∀ d ∈ ([fun sv => sv, fun sv => sv] :
        List ((Nat → Nat) → (Nat → Nat))), d = fun sv => sv) ∧
      ((((WorkerBuilder.new "w").stream ([] : JobStream Nat String)).addLayers
            ([fun sv => sv, fun sv => sv] :
              List ((Nat → Nat) → (Nat → Nat)))).build
          (fun x => x + 1)).service 3 = (fun x => x + 1) 3 :=
  ⟨fun d hd => by
      simp only [List.mem_cons, List.mem_singleton, List.not_mem_nil, or_false] at hd
      rcases hd with h | h <;> exact h,
    decoration_neutrality "w" [] [fun sv => sv, fun sv => sv] (fun x => x + 1) 3
      (fun d hd => by
        simp only [List.mem_cons, List.mem_singleton, List.not_mem_nil, or_false] at hd
        rcases hd with h | h <;> exact h)⟩

/-- Claim C9: calling `stream` on a builder that already holds a concrete
stream source replaces that source — the new stream is stored, reaches the
built worker, and re-fixes the job-item type to the new stream's item type
(visible in the result type `WorkerBuilder NJ (JobStream NJ E) I O`), while
name and decorator chain carry over unchanged. -/
theorem stream_replaces_existing_source {J0 E0 I O NJ E : Type}
    (b : WorkerBuilder J0 (JobStream J0 E0) I O) (s : JobStream NJ E) (H : I) :
    (b.stream s).source = s ∧
      ((b.stream s).build H).stream = s ∧
      ((b.stream s).build H).name = b.name ∧
      (b.stream s).layer = b.layer :=
  ⟨rfl, rfl, rfl, rfl⟩

/-- Claim C10: attaching a source and adding a decorator commute — layering
then streaming produces the same builder state as streaming then layering,
and the built workers coincide, so the lifecycle ordering is not enforced. -/
theorem stream_layer_commute {J S I O NI NJ E : Type} (b : WorkerBuilder J S I O)
    (l : NI → I) (s : JobStream NJ E) (H : NI) :
    (b.addLayer l).stream s = (b.stream s).addLayer l ∧
      ((b.addLayer l).stream s).build H = ((b.stream s).addLayer l).build H :=
  ⟨rfl, rfl⟩

end Apalis
